import Mathlib

/-!
Shallow embedding of the Freescale KPSDK ADC driver
(`fsl_adc_driver.c`) and of the MK64F12 non-volatile flash-configuration
register map (`MK64F12_nv.h`).

The driver is a thin pass-through layer: each public function issues a
fixed sequence of HAL register accesses and maintains one per-instance
context record.  We model the hardware side by an oracle (the values the
HAL read functions return) and record every HAL call in an event trace,
so that sequencing claims become statements about the trace, and the
per-instance context (`adc_context_internal`) becomes explicit state.
-/

namespace AdcDriver

/-- Status codes returned by the driver (from `adc_status_t`). -/
inductive AdcStatus where
  | kStatus_ADC_Success
  | kStatus_ADC_Failed
  | kStatus_ADC_InvalidArgument
  deriving Repr, DecidableEq

open AdcStatus

/-- One HAL register access or interrupt-manager call made by the driver.
Each constructor corresponds to one `adc_hal_*` / `clock_manager_*` /
`interrupt_*` function invoked from `fsl_adc_driver.c`; the payloads are
its arguments. `callbackInvoked` records a call through the registered
user callback pointer (identified by a tag). -/
inductive HalEvent where
  | getConversionValue (inst mux : Nat)
  | isConversionCompleted (inst mux : Nat)
  | adcDisable (inst mux : Nat)
  | setGroupMux (inst mux : Nat)
  | interruptEnable (irq : Nat)
  | interruptDisable (irq : Nat)
  | configureInterrupt (inst mux : Nat) (enable : Bool)
  | adcEnable (inst mux channel : Nat) (diff : Bool)
  | clockGate (inst : Nat) (enable : Bool)
  | setClockSourceMode (inst mode : Nat)
  | setClockDividerMode (inst mode : Nat)
  | setReferenceVoltageMode (inst mode : Nat)
  | setResolutionMode (inst mode : Nat)
  | configureContinuousConversion (inst : Nat) (enable : Bool)
  | startCalibration (inst : Nat)
  | getCalibrationPG (inst : Nat)
  | getCalibrationMG (inst : Nat)
  | endCalibration (inst : Nat)
  | setCalibrationPG (inst value : Nat)
  | setCalibrationMG (inst value : Nat)
  | configureHwAverage (inst : Nat) (enable : Bool)
  | setHwAverageMode (inst mode : Nat)
  | callbackInvoked (tag : Nat)
  deriving Repr, DecidableEq

/-- The hardware's responses to the HAL read functions.  `conversionCompleted`
is indexed by the poll attempt, so a busy-wait loop observes a sequence of
answers.  `startCalibration` is the status `adc_hal_start_calibration`
returns. -/
structure HwOracle where
  conversionValue : Nat → Nat → Nat
  conversionCompleted : Nat → Nat → Nat → Bool
  startCalibration : Nat → AdcStatus
  calibrationPG : Nat → Nat
  calibrationMG : Nat → Nat
  irqId : Nat → Nat

/-- Per-inst ISR context (`adc_context_t`): the registered user callback
(`none` models a NULL pointer, `some tag` a function pointer), the mux of
the active conversion group, and the buffered conversion value. -/
structure AdcContext where
  userCallback : Option Nat
  muxSelect : Nat
  value : Nat
  deriving Repr, DecidableEq

/-- The driver's mutable state: the array `adc_context_internal`,
modelled as a function from instance number to context. -/
def CtxArray : Type := Nat → AdcContext

/-- Point update of the context array. -/
def updateCtx (st : CtxArray) (i : Nat) (c : AdcContext) : CtxArray :=
  fun j => if j = i then c else st j

/-- Channel configuration (`adc_channel_config_t`), the fields the driver
reads: channel id, group mux, interrupt flag, differential flag. -/
structure ChannelConfig where
  channelId : Nat
  muxSelect : Nat
  isInterruptEnabled : Bool
  isDifferentialEnabled : Bool
  deriving Repr, DecidableEq

/-- Basic user configuration (`adc_user_config_t`); the mode fields are
enum values, carried as abstract numeric tags. -/
structure UserConfig where
  clockSourceMode : Nat
  clockSourceDividerMode : Nat
  referenceVoltageMode : Nat
  resolutionMode : Nat
  isContinuousEnabled : Bool
  deriving Repr, DecidableEq

/-- Calibration parameters (`adc_calibration_param_t`). -/
structure CalibrationParam where
  PG : Nat
  MG : Nat
  deriving Repr, DecidableEq

/-- Index (starting from 0) of the first poll at which `complete` answers
true, searching at most `fuel` polls; `none` when the busy-wait loop has
not terminated within `fuel` iterations. -/
def pollFirst (complete : Nat → Bool) : Nat → Option Nat
  | 0 => none
  | fuel + 1 =>
    if complete 0 then some 0
    else Option.map Nat.succ (pollFirst (fun k => complete (k + 1)) fuel)

/-- `adc_get_conversion_value`.  Returns `none` when the polling loop did
not finish within `fuel` iterations (the C loop is unbounded; `fuel`
truncates it), otherwise the returned `uint32_t`, the new context array
and the trace of HAL calls.  `count` stands for `HW_ADC_INSTANCE_COUNT`
and `cfg = none` models a NULL `channelCfgPtr`. -/
def adc_get_conversion_value (count : Nat) (oracle : HwOracle) (st : CtxArray)
    (inst : Nat) (cfg : Option ChannelConfig) (fuel : Nat) :
    Option (Nat × CtxArray × List HalEvent) :=
  match cfg with
  | none => some (0, st, [])
  | some c =>
    if count ≤ inst then some (0, st, [])
    else if c.isInterruptEnabled then
      -- the value will be updated by the driver's internal ISR
      some ((st inst).value, st, [])
    else
      match pollFirst (fun k => oracle.conversionCompleted inst c.muxSelect k) fuel with
      | none => none
      | some k =>
        let v := oracle.conversionValue inst c.muxSelect
        some (v,
          updateCtx st inst
            { st inst with value := v },
          List.replicate (k + 1) (HalEvent.isConversionCompleted inst c.muxSelect)
            ++ [HalEvent.getConversionValue inst c.muxSelect])

/-- `adc_isr_internal`: stores the hardware conversion value for the mux
recorded in the context into the context's value buffer, then calls the
user callback if one is registered. -/
def adc_isr_internal (oracle : HwOracle) (st : CtxArray) (inst : Nat) :
    CtxArray × List HalEvent :=
  let v := oracle.conversionValue inst (st inst).muxSelect
  let st' := updateCtx st inst { st inst with value := v }
  match (st inst).userCallback with
  | some f =>
    (st', [HalEvent.getConversionValue inst (st inst).muxSelect,
           HalEvent.callbackInvoked f])
  | none =>
    (st', [HalEvent.getConversionValue inst (st inst).muxSelect])

/-- `adc_register_user_callback_isr`: store `func` (possibly NULL) into the
instance single callback slot. -/
def adc_register_user_callback_isr (st : CtxArray) (inst : Nat)
    (func : Option Nat) : CtxArray :=
  updateCtx st inst { st inst with userCallback := func }

/-- `adc_start_conversion`.  `cfg = none` models a NULL `channelCfgPtr`. -/
def adc_start_conversion (oracle : HwOracle) (st : CtxArray) (inst : Nat)
    (cfg : Option ChannelConfig) : AdcStatus × CtxArray × List HalEvent :=
  match cfg with
  | none => (kStatus_ADC_InvalidArgument, st, [])
  | some c =>
    if c.isInterruptEnabled then
      (kStatus_ADC_Success,
       updateCtx st inst { st inst with muxSelect := c.muxSelect },
       [HalEvent.adcDisable inst c.muxSelect,
        HalEvent.setGroupMux inst c.muxSelect,
        HalEvent.interruptEnable (oracle.irqId inst),
        HalEvent.configureInterrupt inst c.muxSelect true,
        HalEvent.adcEnable inst c.muxSelect c.channelId c.isDifferentialEnabled])
    else
      (kStatus_ADC_Success, st,
       [HalEvent.adcDisable inst c.muxSelect,
        HalEvent.setGroupMux inst c.muxSelect,
        HalEvent.configureInterrupt inst c.muxSelect false,
        HalEvent.interruptDisable (oracle.irqId inst),
        HalEvent.adcEnable inst c.muxSelect c.channelId c.isDifferentialEnabled])

/-- `adc_init`.  `cfg = none` models a NULL `cfgPtr`; the trace lists the
clock-gate call and the five register writes in program order. -/
def adc_init (inst : Nat) (cfg : Option UserConfig) :
    AdcStatus × List HalEvent :=
  match cfg with
  | none => (kStatus_ADC_InvalidArgument, [])
  | some c =>
    (kStatus_ADC_Success,
     [HalEvent.clockGate inst true,
      HalEvent.setClockSourceMode inst c.clockSourceMode,
      HalEvent.setClockDividerMode inst c.clockSourceDividerMode,
      HalEvent.setReferenceVoltageMode inst c.referenceVoltageMode,
      HalEvent.setResolutionMode inst c.resolutionMode,
      HalEvent.configureContinuousConversion inst c.isContinuousEnabled])

/-- `adc_set_calibration_param`.  `param = none` models a NULL `paramPtr`:
the function checks for NULL and returns `kStatus_ADC_InvalidArgument`
without any register write. -/
def adc_set_calibration_param (inst : Nat) (param : Option CalibrationParam) :
    AdcStatus × List HalEvent :=
  match param with
  | none => (kStatus_ADC_InvalidArgument, [])
  | some p =>
    (kStatus_ADC_Success,
     [HalEvent.setCalibrationPG inst p.PG,
      HalEvent.setCalibrationMG inst p.MG])

/-- `adc_get_calibration_param`.  `paramValid = false` models a NULL
`paramPtr`.  The C function performs no NULL check: after a successful
calibration start it writes `paramPtr->PG` and `paramPtr->MG`
unconditionally, so with a NULL pointer the store is undefined behaviour,
modelled by the result `none`.  Otherwise the result carries the status,
the parameters written through the pointer, and the HAL trace. -/
def adc_get_calibration_param (oracle : HwOracle) (inst : Nat)
    (paramValid : Bool) :
    Option (AdcStatus × Option CalibrationParam × List HalEvent) :=
  if oracle.startCalibration inst = kStatus_ADC_Failed then
    some (kStatus_ADC_Failed, none, [HalEvent.startCalibration inst])
  else if paramValid then
    some (kStatus_ADC_Success,
      some { PG := oracle.calibrationPG inst, MG := oracle.calibrationMG inst },
      [HalEvent.startCalibration inst,
       HalEvent.getCalibrationPG inst,
       HalEvent.getCalibrationMG inst,
       -- clear R register after calibration
       HalEvent.getConversionValue inst 0,
       HalEvent.endCalibration inst])
  else
    none

/-- Enum tag for `kAdcClockSourceBusClk2`; the numeric value is an opaque
tag, immaterial to every claim. -/
def kAdcClockSourceBusClk2 : Nat := 1

/-- Enum tag for `kAdcClockDivider8`. -/
def kAdcClockDivider8 : Nat := 3

/-- Enum tag for `kAdcSingleDiff16`. -/
def kAdcSingleDiff16 : Nat := 16

/-- Enum tag for `kAdcVoltageVref`. -/
def kAdcVoltageVref : Nat := 0

/-- Enum tag for `kAdcHwAverageCount32`. -/
def kAdcHwAverageCount32 : Nat := 32

/-- The fixed highest-accuracy configuration `adcCfg` built inside
`adc_auto_calibration`. -/
def adcAutoCalibrationCfg : UserConfig :=
  { clockSourceMode := kAdcClockSourceBusClk2
    clockSourceDividerMode := kAdcClockDivider8
    resolutionMode := kAdcSingleDiff16
    referenceVoltageMode := kAdcVoltageVref
    isContinuousEnabled := false }

/-- `adc_auto_calibration`.  `paramValid = false` models a NULL `paramPtr`
handed through to `adc_get_calibration_param` (whose NULL dereference is
undefined behaviour, propagated as `none`).  The trace concatenates, in
program order: the `adc_init` writes, enabling hardware averaging with
count 32, the calibration sequence, and — only on success — the offset
writes and the disabling of hardware averaging. -/
def adc_auto_calibration (oracle : HwOracle) (inst : Nat)
    (paramValid : Bool) : Option (AdcStatus × List HalEvent) :=
  -- adc_init is called with &adcCfg, never NULL, so it returns success
  let preTrace := (adc_init inst (some adcAutoCalibrationCfg)).2
    ++ [HalEvent.configureHwAverage inst true,
        HalEvent.setHwAverageMode inst kAdcHwAverageCount32]
  match adc_get_calibration_param oracle inst paramValid with
  | none => none
  | some (calStatus, calParam, calTrace) =>
    if calStatus ≠ kStatus_ADC_Success then
      some (kStatus_ADC_Failed, preTrace ++ calTrace)
    else
      some (kStatus_ADC_Success,
        preTrace ++ calTrace
          ++ (adc_set_calibration_param inst calParam).2
          ++ [HalEvent.configureHwAverage inst false])

/-- Whether hardware averaging is enabled after the driver has issued the
calls in `tr` on instance `inst`, starting from state `b`: the last
`configureHwAverage inst _` event in the trace decides. -/
def hwAvgAfter (inst : Nat) (b : Bool) : List HalEvent → Bool
  | [] => b
  | HalEvent.configureHwAverage i v :: rest =>
    hwAvgAfter inst (if i = inst then v else b) rest
  | _ :: rest => hwAvgAfter inst b rest

end AdcDriver

namespace NvRegs

/-- Base address of the FTFE flash-configuration field (`REGS_NV_BASE`). -/
def REGS_NV_BASE : Nat := 0x400

/-- `HW_NV_BACKKEY3_ADDR`. -/
def HW_NV_BACKKEY3_ADDR : Nat := REGS_NV_BASE + 0x0

/-- `HW_NV_BACKKEY2_ADDR`. -/
def HW_NV_BACKKEY2_ADDR : Nat := REGS_NV_BASE + 0x1

/-- `HW_NV_BACKKEY1_ADDR`. -/
def HW_NV_BACKKEY1_ADDR : Nat := REGS_NV_BASE + 0x2

/-- `HW_NV_BACKKEY0_ADDR`. -/
def HW_NV_BACKKEY0_ADDR : Nat := REGS_NV_BASE + 0x3

/-- `HW_NV_BACKKEY7_ADDR`. -/
def HW_NV_BACKKEY7_ADDR : Nat := REGS_NV_BASE + 0x4

/-- `HW_NV_BACKKEY6_ADDR`. -/
def HW_NV_BACKKEY6_ADDR : Nat := REGS_NV_BASE + 0x5

/-- `HW_NV_BACKKEY5_ADDR`. -/
def HW_NV_BACKKEY5_ADDR : Nat := REGS_NV_BASE + 0x6

/-- `HW_NV_BACKKEY4_ADDR`. -/
def HW_NV_BACKKEY4_ADDR : Nat := REGS_NV_BASE + 0x7

/-- `HW_NV_FPROT3_ADDR`. -/
def HW_NV_FPROT3_ADDR : Nat := REGS_NV_BASE + 0x8

/-- `HW_NV_FPROT2_ADDR`. -/
def HW_NV_FPROT2_ADDR : Nat := REGS_NV_BASE + 0x9

/-- `HW_NV_FPROT1_ADDR`. -/
def HW_NV_FPROT1_ADDR : Nat := REGS_NV_BASE + 0xA

/-- `HW_NV_FPROT0_ADDR`. -/
def HW_NV_FPROT0_ADDR : Nat := REGS_NV_BASE + 0xB

/-- `HW_NV_FSEC_ADDR`. -/
def HW_NV_FSEC_ADDR : Nat := REGS_NV_BASE + 0xC

/-- `HW_NV_FOPT_ADDR`. -/
def HW_NV_FOPT_ADDR : Nat := REGS_NV_BASE + 0xD

/-- `HW_NV_FEPROT_ADDR`. -/
def HW_NV_FEPROT_ADDR : Nat := REGS_NV_BASE + 0xE

/-- `HW_NV_FDPROT_ADDR`. -/
def HW_NV_FDPROT_ADDR : Nat := REGS_NV_BASE + 0xF

/-- The sixteen register addresses in the declaration order of the fields
of `hw_nv_t` (BACKKEY3 first, FDPROT last). -/
def nvRegisterAddrs : List Nat :=
  [HW_NV_BACKKEY3_ADDR, HW_NV_BACKKEY2_ADDR, HW_NV_BACKKEY1_ADDR,
   HW_NV_BACKKEY0_ADDR, HW_NV_BACKKEY7_ADDR, HW_NV_BACKKEY6_ADDR,
   HW_NV_BACKKEY5_ADDR, HW_NV_BACKKEY4_ADDR, HW_NV_FPROT3_ADDR,
   HW_NV_FPROT2_ADDR, HW_NV_FPROT1_ADDR, HW_NV_FPROT0_ADDR,
   HW_NV_FSEC_ADDR, HW_NV_FOPT_ADDR, HW_NV_FEPROT_ADDR, HW_NV_FDPROT_ADDR]

/-- Byte sizes of the sixteen fields of the packed struct `hw_nv_t`: each
field is a union over a single `uint8_t`, hence one byte, and
`#pragma pack(1)` forbids padding. -/
def nvFieldSizes : List Nat := List.replicate 16 1

/-- Byte offset of field `i` of the packed struct `hw_nv_t`: the sum of
the sizes of the preceding fields (no padding under `#pragma pack(1)`). -/
def nvFieldOffset (i : Nat) : Nat :=
  (nvFieldSizes.take i).sum

/-- Bit position `BP_NV_FSEC_SEC`. -/
def BP_NV_FSEC_SEC : Nat := 0

/-- Bit mask `BM_NV_FSEC_SEC`. -/
def BM_NV_FSEC_SEC : Nat := 0x03

/-- Bit-field size `BS_NV_FSEC_SEC`. -/
def BS_NV_FSEC_SEC : Nat := 2

/-- Bit position `BP_NV_FSEC_FSLACC`. -/
def BP_NV_FSEC_FSLACC : Nat := 2

/-- Bit mask `BM_NV_FSEC_FSLACC`. -/
def BM_NV_FSEC_FSLACC : Nat := 0x0C

/-- Bit-field size `BS_NV_FSEC_FSLACC`. -/
def BS_NV_FSEC_FSLACC : Nat := 2

/-- Bit position `BP_NV_FSEC_MEEN`. -/
def BP_NV_FSEC_MEEN : Nat := 4

/-- Bit mask `BM_NV_FSEC_MEEN`. -/
def BM_NV_FSEC_MEEN : Nat := 0x30

/-- Bit-field size `BS_NV_FSEC_MEEN`. -/
def BS_NV_FSEC_MEEN : Nat := 2

/-- Bit position `BP_NV_FSEC_KEYEN`. -/
def BP_NV_FSEC_KEYEN : Nat := 6

/-- Bit mask `BM_NV_FSEC_KEYEN`. -/
def BM_NV_FSEC_KEYEN : Nat := 0xC0

/-- Bit-field size `BS_NV_FSEC_KEYEN`. -/
def BS_NV_FSEC_KEYEN : Nat := 2

/-- Widths, in declaration order, of the bit-fields of the struct
`_hw_nv_fsec_bitfields`: `SEC : 2`, `FSLACC : 2`, `MEEN : 2`,
`KEYEN : 2`. -/
def fsecFieldWidths : List Nat := [2, 2, 2, 2]

/-- Bit offset of bit-field `i` of `_hw_nv_fsec_bitfields`: C bit-fields
on a `uint8_t` are allocated from bit 0 upward, so the offset is the sum
of the widths of the preceding fields. -/
def fsecFieldBitOffset (i : Nat) : Nat :=
  (fsecFieldWidths.take i).sum

end NvRegs

namespace AdcDriver

/-- Sample hardware responses used to instantiate theorems at concrete
inputs: the conversion completes at the first poll with value 0, and
calibration starts successfully. -/
def demoOracle : HwOracle :=
  { conversionValue := fun _ _ => 0
    conversionCompleted := fun _ _ _ => true
    startCalibration := fun _ => AdcStatus.kStatus_ADC_Success
    calibrationPG := fun _ => 5
    calibrationMG := fun _ => 6
    irqId := fun i => i + 39 }

/-- Like `demoOracle` but `adc_hal_start_calibration` fails. -/
def demoOracleFail : HwOracle :=
  { demoOracle with startCalibration := fun _ => AdcStatus.kStatus_ADC_Failed }

/-- Like `demoOracle` but the conversion never completes. -/
def demoOracleStuck : HwOracle :=
  { demoOracle with conversionCompleted := fun _ _ _ => false }

/-- A sample context array: no callback, mux 0, buffered value 7. -/
def demoSt : CtxArray :=
  fun _ => { userCallback := none, muxSelect := 0, value := 7 }

/-- A sample channel configuration with interrupt mode enabled. -/
def demoCfgIntr : ChannelConfig :=
  { channelId := 1, muxSelect := 0, isInterruptEnabled := true,
    isDifferentialEnabled := false }

/-- A sample channel configuration in polling mode. -/
def demoCfgPoll : ChannelConfig :=
  { demoCfgIntr with isInterruptEnabled := false }

/-- Tests whether an event is a write of the clock source mode. -/
def isClockSourceModeWrite : HalEvent → Bool
  | HalEvent.setClockSourceMode _ _ => true
  | _ => false

/-- Tests whether an event is a write of the clock divider mode. -/
def isClockDividerModeWrite : HalEvent → Bool
  | HalEvent.setClockDividerMode _ _ => true
  | _ => false

/-- Tests whether an event is a write of the reference voltage mode. -/
def isReferenceVoltageModeWrite : HalEvent → Bool
  | HalEvent.setReferenceVoltageMode _ _ => true
  | _ => false

/-- Tests whether an event is a write of the resolution mode. -/
def isResolutionModeWrite : HalEvent → Bool
  | HalEvent.setResolutionMode _ _ => true
  | _ => false

/-- Tests whether an event is a write of the continuous-conversion flag. -/
def isContinuousConversionWrite : HalEvent → Bool
  | HalEvent.configureContinuousConversion _ _ => true
  | _ => false

/-- Tests whether an event is a clock-gate call. -/
def isClockGateCall : HalEvent → Bool
  | HalEvent.clockGate _ _ => true
  | _ => false

end AdcDriver

namespace NvRegs

/-- C6: the sixteen NV registers occupy the sixteen consecutive byte
addresses `REGS_NV_BASE + 0x0` through `REGS_NV_BASE + 0xF` in struct
declaration order, with no gaps or overlaps, and the byte offset of each
one-byte field of the packed struct `hw_nv_t` equals the offset of its
register from `REGS_NV_BASE`, so the `HW_NV` overlay at `REGS_NV_BASE`
places every field at its register's address. -/
theorem nv_register_layout_consecutive :
    nvRegisterAddrs = (List.range 16).map (fun i => REGS_NV_BASE + i) ∧
    nvRegisterAddrs.Nodup ∧
    ((List.range 16).all fun i =>
      REGS_NV_BASE + nvFieldOffset i = nvRegisterAddrs.getD i 0) = true := by
  refine ⟨?_, ?_, ?_⟩ <;> decide

/-- C7: in `NV_FSEC` the fields SEC, FSLACC, MEEN, KEYEN sit at bit
positions 0, 2, 4, 6 with size 2 each; every `BM_*` mask equals
`(2 ^ size - 1)` shifted left by the `BP_*` position; the four masks are
pairwise disjoint and together cover all 8 bits; and the positions agree
with the declared bit-field struct layout. -/
theorem nv_fsec_bitfield_layout :
    (BP_NV_FSEC_SEC = 0 ∧ BP_NV_FSEC_FSLACC = 2 ∧
     BP_NV_FSEC_MEEN = 4 ∧ BP_NV_FSEC_KEYEN = 6) ∧
    (BS_NV_FSEC_SEC = 2 ∧ BS_NV_FSEC_FSLACC = 2 ∧
     BS_NV_FSEC_MEEN = 2 ∧ BS_NV_FSEC_KEYEN = 2) ∧
    (BM_NV_FSEC_SEC = (2 ^ BS_NV_FSEC_SEC - 1) <<< BP_NV_FSEC_SEC ∧
     BM_NV_FSEC_FSLACC = (2 ^ BS_NV_FSEC_FSLACC - 1) <<< BP_NV_FSEC_FSLACC ∧
     BM_NV_FSEC_MEEN = (2 ^ BS_NV_FSEC_MEEN - 1) <<< BP_NV_FSEC_MEEN ∧
     BM_NV_FSEC_KEYEN = (2 ^ BS_NV_FSEC_KEYEN - 1) <<< BP_NV_FSEC_KEYEN) ∧
    (BM_NV_FSEC_SEC &&& BM_NV_FSEC_FSLACC = 0 ∧
     BM_NV_FSEC_SEC &&& BM_NV_FSEC_MEEN = 0 ∧
     BM_NV_FSEC_SEC &&& BM_NV_FSEC_KEYEN = 0 ∧
     BM_NV_FSEC_FSLACC &&& BM_NV_FSEC_MEEN = 0 ∧
     BM_NV_FSEC_FSLACC &&& BM_NV_FSEC_KEYEN = 0 ∧
     BM_NV_FSEC_MEEN &&& BM_NV_FSEC_KEYEN = 0) ∧
    (BM_NV_FSEC_SEC ||| BM_NV_FSEC_FSLACC |||
     BM_NV_FSEC_MEEN ||| BM_NV_FSEC_KEYEN = 0xFF) ∧
    (fsecFieldBitOffset 0 = BP_NV_FSEC_SEC ∧
     fsecFieldBitOffset 1 = BP_NV_FSEC_FSLACC ∧
     fsecFieldBitOffset 2 = BP_NV_FSEC_MEEN ∧
     fsecFieldBitOffset 3 = BP_NV_FSEC_KEYEN) := by
  decide

end NvRegs

namespace AdcDriver

/-- C4: `adc_init` rejects a NULL configuration with
`kStatus_ADC_InvalidArgument` and no register access; otherwise it
enables the ADC's clock gate and then issues exactly one register write
per configuration field — clock source mode, clock divider mode,
reference voltage mode, resolution mode, continuous-conversion flag, in
that order — and returns `kStatus_ADC_Success`, with no other HAL call in
between. -/
theorem adc_init_pass_through (inst : Nat) (c : UserConfig) :
    adc_init inst none = (AdcStatus.kStatus_ADC_InvalidArgument, []) ∧
    adc_init inst (some c) =
      (AdcStatus.kStatus_ADC_Success,
       [HalEvent.clockGate inst true,
        HalEvent.setClockSourceMode inst c.clockSourceMode,
        HalEvent.setClockDividerMode inst c.clockSourceDividerMode,
        HalEvent.setReferenceVoltageMode inst c.referenceVoltageMode,
        HalEvent.setResolutionMode inst c.resolutionMode,
        HalEvent.configureContinuousConversion inst c.isContinuousEnabled]) ∧
    ((adc_init inst (some c)).2.countP isClockGateCall = 1 ∧
     (adc_init inst (some c)).2.countP isClockSourceModeWrite = 1 ∧
     (adc_init inst (some c)).2.countP isClockDividerModeWrite = 1 ∧
     (adc_init inst (some c)).2.countP isReferenceVoltageModeWrite = 1 ∧
     (adc_init inst (some c)).2.countP isResolutionModeWrite = 1 ∧
     (adc_init inst (some c)).2.countP isContinuousConversionWrite = 1) := by
  refine ⟨rfl, rfl, ?_, ?_, ?_, ?_, ?_, ?_⟩ <;>
    simp [adc_init, List.countP_cons, List.countP_nil,
      isClockGateCall, isClockSourceModeWrite, isClockDividerModeWrite,
      isReferenceVoltageModeWrite, isResolutionModeWrite,
      isContinuousConversionWrite]

/-- C3: `adc_start_conversion` returns `kStatus_ADC_InvalidArgument` with
no register access when the channel configuration is NULL; otherwise it
first disables the conversion for the configured mux and sets the group
mux, then — when `isInterruptEnabled` — records the mux in the
per-instance context and enables the NVIC interrupt and the ADC interrupt
configuration, or — when not — disables both, and finally enables the
conversion on the configured channel and returns `kStatus_ADC_Success`. -/
theorem adc_start_conversion_sequencing (oracle : HwOracle) (st : CtxArray)
    (inst : Nat) (c : ChannelConfig) :
    adc_start_conversion oracle st inst none =
      (AdcStatus.kStatus_ADC_InvalidArgument, st, []) ∧
    (c.isInterruptEnabled = true →
      adc_start_conversion oracle st inst (some c) =
        (AdcStatus.kStatus_ADC_Success,
         updateCtx st inst { st inst with muxSelect := c.muxSelect },
         [HalEvent.adcDisable inst c.muxSelect,
          HalEvent.setGroupMux inst c.muxSelect,
          HalEvent.interruptEnable (oracle.irqId inst),
          HalEvent.configureInterrupt inst c.muxSelect true,
          HalEvent.adcEnable inst c.muxSelect c.channelId
            c.isDifferentialEnabled])) ∧
    (c.isInterruptEnabled = false →
      adc_start_conversion oracle st inst (some c) =
        (AdcStatus.kStatus_ADC_Success, st,
         [HalEvent.adcDisable inst c.muxSelect,
          HalEvent.setGroupMux inst c.muxSelect,
          HalEvent.configureInterrupt inst c.muxSelect false,
          HalEvent.interruptDisable (oracle.irqId inst),
          HalEvent.adcEnable inst c.muxSelect c.channelId
            c.isDifferentialEnabled])) := by
  refine ⟨rfl, ?_, ?_⟩ <;> intro h <;> simp [adc_start_conversion, h]

/-- Closed instantiation of `adc_start_conversion_sequencing` at a
concrete interrupt-mode configuration. -/
theorem adc_start_conversion_sequencing_witness :
    adc_start_conversion demoOracle demoSt 0 (some demoCfgIntr) =
      (AdcStatus.kStatus_ADC_Success,
       updateCtx demoSt 0 { demoSt 0 with muxSelect := demoCfgIntr.muxSelect },
       [HalEvent.adcDisable 0 demoCfgIntr.muxSelect,
        HalEvent.setGroupMux 0 demoCfgIntr.muxSelect,
        HalEvent.interruptEnable (demoOracle.irqId 0),
        HalEvent.configureInterrupt 0 demoCfgIntr.muxSelect true,
        HalEvent.adcEnable 0 demoCfgIntr.muxSelect demoCfgIntr.channelId
          demoCfgIntr.isDifferentialEnabled]) :=
  (adc_start_conversion_sequencing demoOracle demoSt 0 demoCfgIntr).2.1 rfl

/-- One unfolding step of the busy-wait search. -/
theorem pollFirst_succ (complete : Nat → Bool) (fuel : Nat) :
    pollFirst complete (fuel + 1) =
      if complete 0 then some 0
      else Option.map Nat.succ (pollFirst (fun k => complete (k + 1)) fuel) :=
  rfl

/-- When some poll answers true, the busy-wait search succeeds within
that many iterations. -/
theorem pollFirst_isSome_of_complete (k : Nat) :
    ∀ complete : Nat → Bool, complete k = true →
      (pollFirst complete (k + 1)).isSome = true := by
  induction k with
  | zero =>
    intro complete h
    rw [pollFirst_succ, if_pos h]
    rfl
  | succ k ih =>
    intro complete h
    by_cases h0 : complete 0 = true
    · rw [pollFirst_succ, if_pos h0]
      rfl
    · have hs := ih (fun j => complete (j + 1)) h
      rcases Option.isSome_iff_exists.mp hs with ⟨m, hm⟩
      rw [pollFirst_succ, if_neg h0, hm]
      rfl

/-- When no poll ever answers true, the busy-wait search fails for every
bound. -/
theorem pollFirst_none_of_never (fuel : Nat) :
    ∀ complete : Nat → Bool, (∀ k, complete k = false) →
      pollFirst complete fuel = none := by
  induction fuel with
  | zero => intro complete _; rfl
  | succ fuel ih =>
    intro complete h
    simp [pollFirst, h 0, ih (fun j => complete (j + 1)) (fun k => h (k + 1))]

/-- C1: for a valid instance and non-NULL channel configuration,
`adc_get_conversion_value` works in exactly one of two modes.  With
`isInterruptEnabled` true it performs no HAL access (empty trace) and
returns the per-instance buffered value unchanged.  With
`isInterruptEnabled` false it polls `adc_hal_is_conversion_completed` for
the configured mux until completion (here: the poll succeeds at attempt
`k` within `fuel`), stores `adc_hal_get_conversion_value` for that mux
into the per-instance context buffer, and returns that stored value. -/
theorem adc_get_conversion_value_two_modes (count : Nat) (oracle : HwOracle)
    (st : CtxArray) (inst : Nat) (c : ChannelConfig) (fuel k : Nat)
    (h : inst < count) :
    (c.isInterruptEnabled = true →
      adc_get_conversion_value count oracle st inst (some c) fuel =
        some ((st inst).value, st, [])) ∧
    (c.isInterruptEnabled = false →
      pollFirst (fun j => oracle.conversionCompleted inst c.muxSelect j) fuel
        = some k →
      adc_get_conversion_value count oracle st inst (some c) fuel =
        some (oracle.conversionValue inst c.muxSelect,
          updateCtx st inst
            { st inst with value := oracle.conversionValue inst c.muxSelect },
          List.replicate (k + 1)
              (HalEvent.isConversionCompleted inst c.muxSelect)
            ++ [HalEvent.getConversionValue inst c.muxSelect])) := by
  have hnle : ¬ count ≤ inst := Nat.not_le.mpr h
  constructor
  · intro hintr
    simp [adc_get_conversion_value, hnle, hintr]
  · intro hintr hpoll
    simp [adc_get_conversion_value, hnle, hintr, hpoll]

/-- Closed instantiation of `adc_get_conversion_value_two_modes`: in
interrupt mode the buffered value 7 is returned with an empty trace. -/
theorem adc_get_conversion_value_two_modes_witness :
    adc_get_conversion_value 1 demoOracle demoSt 0 (some demoCfgIntr) 1 =
      some ((demoSt 0).value, demoSt, []) :=
  (adc_get_conversion_value_two_modes 1 demoOracle demoSt 0 demoCfgIntr 1 0
    (by decide)).1 rfl

/-- C2: `adc_isr_internal` stores the hardware conversion value for the
mux recorded in the per-instance context into that context's value
buffer (leaving callback and mux unchanged), and the register read comes
first in its trace, followed by a callback invocation exactly when a
non-NULL callback is registered; the instance has a single callback
slot, which `adc_register_user_callback_isr` overwrites. -/
theorem adc_isr_internal_stores_then_calls (count : Nat) (oracle : HwOracle)
    (st : CtxArray) (inst : Nat) (f g : Option Nat)
    (h : inst < count) :
    (((adc_isr_internal oracle st inst).1 inst).value =
        oracle.conversionValue inst (st inst).muxSelect ∧
     ((adc_isr_internal oracle st inst).1 inst).muxSelect =
        (st inst).muxSelect ∧
     ((adc_isr_internal oracle st inst).1 inst).userCallback =
        (st inst).userCallback) ∧
    ((adc_isr_internal oracle st inst).2.head? =
        some (HalEvent.getConversionValue inst (st inst).muxSelect)) ∧
    (∀ t : Nat, HalEvent.callbackInvoked t ∈ (adc_isr_internal oracle st inst).2
        ↔ (st inst).userCallback = some t) ∧
    ((adc_register_user_callback_isr
        (adc_register_user_callback_isr st inst f) inst g) inst).userCallback
      = g := by
  refine ⟨⟨?_, ?_, ?_⟩, ?_, ?_, ?_⟩ <;>
    cases hcb : (st inst).userCallback <;>
      simp [adc_isr_internal, adc_register_user_callback_isr, updateCtx, hcb,
        eq_comm]

/-- Closed instantiation of `adc_isr_internal_stores_then_calls` at the
sample state with no registered callback. -/
theorem adc_isr_internal_stores_then_calls_witness :
    (((adc_isr_internal demoOracle demoSt 0).1 0).value =
        demoOracle.conversionValue 0 (demoSt 0).muxSelect ∧
     ((adc_isr_internal demoOracle demoSt 0).1 0).muxSelect =
        (demoSt 0).muxSelect ∧
     ((adc_isr_internal demoOracle demoSt 0).1 0).userCallback =
        (demoSt 0).userCallback) ∧
    ((adc_isr_internal demoOracle demoSt 0).2.head? =
        some (HalEvent.getConversionValue 0 (demoSt 0).muxSelect)) ∧
    (∀ t : Nat, HalEvent.callbackInvoked t ∈ (adc_isr_internal demoOracle demoSt 0).2
        ↔ (demoSt 0).userCallback = some t) ∧
    ((adc_register_user_callback_isr
        (adc_register_user_callback_isr demoSt 0 (some 4)) 0 (some 9)) 0).userCallback
      = some 9 :=
  adc_isr_internal_stores_then_calls 1 demoOracle demoSt 0 (some 4) (some 9)
    (by decide)

/-- C5: in polling mode with a valid instance and non-NULL configuration,
`adc_get_conversion_value` terminates exactly on the traces where the
hardware eventually reports completion for the configured mux: if some
poll answers true there is a bound under which the call returns a result,
and if no poll ever answers true the busy-wait loop runs forever (the
call exceeds every bound), there being no retry bound, timeout, or
recovery path. -/
theorem adc_get_conversion_value_termination (count : Nat) (oracle : HwOracle)
    (st : CtxArray) (inst : Nat) (c : ChannelConfig)
    (h : inst < count) (hpoll : c.isInterruptEnabled = false) :
    ((∃ k, oracle.conversionCompleted inst c.muxSelect k = true) →
      ∃ fuel r, adc_get_conversion_value count oracle st inst (some c) fuel
        = some r) ∧
    ((∀ k, oracle.conversionCompleted inst c.muxSelect k = false) →
      ∀ fuel, adc_get_conversion_value count oracle st inst (some c) fuel
        = none) := by
  have hnle : ¬ count ≤ inst := Nat.not_le.mpr h
  constructor
  · rintro ⟨k, hk⟩
    have hsome := pollFirst_isSome_of_complete k
      (fun j => oracle.conversionCompleted inst c.muxSelect j) hk
    rcases Option.isSome_iff_exists.mp hsome with ⟨m, hm⟩
    refine ⟨k + 1,
      (oracle.conversionValue inst c.muxSelect,
       updateCtx st inst
         { st inst with value := oracle.conversionValue inst c.muxSelect },
       List.replicate (m + 1)
           (HalEvent.isConversionCompleted inst c.muxSelect)
         ++ [HalEvent.getConversionValue inst c.muxSelect]), ?_⟩
    simp [adc_get_conversion_value, hnle, hpoll, hm]
  · intro hnever fuel
    have hnone := pollFirst_none_of_never fuel
      (fun j => oracle.conversionCompleted inst c.muxSelect j) hnever
    simp [adc_get_conversion_value, hnle, hpoll, hnone]

/-- Closed instantiation of `adc_get_conversion_value_termination`: with
hardware that never completes, the polling call returns no result at
bound 5. -/
theorem adc_get_conversion_value_termination_witness :
    adc_get_conversion_value 1 demoOracleStuck demoSt 0 (some demoCfgPoll) 5
      = none :=
  (adc_get_conversion_value_termination 1 demoOracleStuck demoSt 0 demoCfgPoll
    (by decide) rfl).2 (fun _ => rfl) 5

/-- C8: whenever the instance is out of range or the channel
configuration is NULL, `adc_get_conversion_value` returns 0 with no HAL
access and an unchanged context array; and this sentinel is
indistinguishable at the interface from a genuine conversion result,
since a valid polling call whose hardware reads 0 also returns 0. -/
theorem adc_get_conversion_value_invalid_args (count : Nat)
    (oracle : HwOracle) (st : CtxArray) (inst : Nat)
    (cfg : Option ChannelConfig) (fuel : Nat)
    (h : count ≤ inst ∨ cfg = none) :
    adc_get_conversion_value count oracle st inst cfg fuel =
      some (0, st, []) ∧
    (∃ st2 tr, adc_get_conversion_value 1 demoOracle demoSt 0
        (some demoCfgPoll) 1 = some (0, st2, tr) ∧ tr ≠ []) := by
  constructor
  · match cfg, h with
    | none, _ => rfl
    | some c, Or.inl hle => simp [adc_get_conversion_value, hle]
  · refine ⟨updateCtx demoSt 0 { demoSt 0 with value := 0 },
      [HalEvent.isConversionCompleted 0 demoCfgPoll.muxSelect,
       HalEvent.getConversionValue 0 demoCfgPoll.muxSelect], rfl, by decide⟩

/-- Closed instantiation of `adc_get_conversion_value_invalid_args`: an
out-of-range instance yields the sentinel 0 with no HAL access. -/
theorem adc_get_conversion_value_invalid_args_witness :
    adc_get_conversion_value 1 demoOracle demoSt 2 (some demoCfgPoll) 3 =
      some (0, demoSt, []) ∧
    (∃ st2 tr, adc_get_conversion_value 1 demoOracle demoSt 0
        (some demoCfgPoll) 1 = some (0, st2, tr) ∧ tr ≠ []) :=
  adc_get_conversion_value_invalid_args 1 demoOracle demoSt 2
    (some demoCfgPoll) 3 (Or.inl (by decide))

/-- C9: `adc_set_calibration_param` rejects a NULL pointer with
`kStatus_ADC_InvalidArgument` and no register write, whereas
`adc_get_calibration_param` performs no NULL check: after a successful
calibration start, a NULL `paramPtr` leads to an unconditional
dereference (undefined behaviour, `none` in the model), while a non-NULL
pointer makes the writes through it defined, yielding the calibration
parameters read from the hardware. -/
theorem adc_calibration_param_null_handling (oracle : HwOracle) (inst : Nat)
    (h : oracle.startCalibration inst ≠ AdcStatus.kStatus_ADC_Failed) :
    adc_set_calibration_param inst none =
      (AdcStatus.kStatus_ADC_InvalidArgument, []) ∧
    adc_get_calibration_param oracle inst false = none ∧
    adc_get_calibration_param oracle inst true =
      some (AdcStatus.kStatus_ADC_Success,
        some { PG := oracle.calibrationPG inst, MG := oracle.calibrationMG inst },
        [HalEvent.startCalibration inst,
         HalEvent.getCalibrationPG inst,
         HalEvent.getCalibrationMG inst,
         HalEvent.getConversionValue inst 0,
         HalEvent.endCalibration inst]) := by
  refine ⟨rfl, ?_, ?_⟩ <;> simp [adc_get_calibration_param, h]

/-- Closed instantiation of `adc_calibration_param_null_handling` at
instance 0 with hardware whose calibration start succeeds. -/
theorem adc_calibration_param_null_handling_witness :
    adc_set_calibration_param 0 none =
      (AdcStatus.kStatus_ADC_InvalidArgument, []) ∧
    adc_get_calibration_param demoOracle 0 false = none ∧
    adc_get_calibration_param demoOracle 0 true =
      some (AdcStatus.kStatus_ADC_Success,
        some { PG := demoOracle.calibrationPG 0, MG := demoOracle.calibrationMG 0 },
        [HalEvent.startCalibration 0,
         HalEvent.getCalibrationPG 0,
         HalEvent.getCalibrationMG 0,
         HalEvent.getConversionValue 0 0,
         HalEvent.endCalibration 0]) :=
  adc_calibration_param_null_handling demoOracle 0 (by decide)

/-- C10: `adc_auto_calibration` enables hardware averaging (count 32)
before calibrating; when `adc_get_calibration_param` fails it returns
`kStatus_ADC_Failed` with hardware averaging still enabled (its trace
contains no disabling call), and only on the success path is hardware
averaging disabled again. -/
theorem adc_auto_calibration_not_atomic (oracle : HwOracle) (inst : Nat) :
    (oracle.startCalibration inst = AdcStatus.kStatus_ADC_Failed →
      ∃ tr, adc_auto_calibration oracle inst true =
          some (AdcStatus.kStatus_ADC_Failed, tr) ∧
        HalEvent.configureHwAverage inst true ∈ tr ∧
        hwAvgAfter inst false tr = true ∧
        HalEvent.configureHwAverage inst false ∉ tr) ∧
    (oracle.startCalibration inst ≠ AdcStatus.kStatus_ADC_Failed →
      ∃ tr, adc_auto_calibration oracle inst true =
          some (AdcStatus.kStatus_ADC_Success, tr) ∧
        hwAvgAfter inst false tr = false) := by
  constructor
  · intro hfail
    refine ⟨(adc_init inst (some adcAutoCalibrationCfg)).2
        ++ [HalEvent.configureHwAverage inst true,
            HalEvent.setHwAverageMode inst kAdcHwAverageCount32]
        ++ [HalEvent.startCalibration inst], ?_, ?_, ?_, ?_⟩ <;>
      simp [adc_auto_calibration, adc_get_calibration_param, hfail, adc_init,
        hwAvgAfter]
  · intro hok
    refine ⟨(adc_init inst (some adcAutoCalibrationCfg)).2
        ++ [HalEvent.configureHwAverage inst true,
            HalEvent.setHwAverageMode inst kAdcHwAverageCount32]
        ++ [HalEvent.startCalibration inst,
            HalEvent.getCalibrationPG inst,
            HalEvent.getCalibrationMG inst,
            HalEvent.getConversionValue inst 0,
            HalEvent.endCalibration inst]
        ++ [HalEvent.setCalibrationPG inst (oracle.calibrationPG inst),
            HalEvent.setCalibrationMG inst (oracle.calibrationMG inst)]
        ++ [HalEvent.configureHwAverage inst false], ?_, ?_⟩ <;>
      simp [adc_auto_calibration, adc_get_calibration_param, hok, adc_init,
        adc_set_calibration_param, hwAvgAfter]

/-- Closed instantiation of `adc_auto_calibration_not_atomic`: with
hardware whose calibration start fails, the call reports failure while
its trace leaves hardware averaging enabled. -/
theorem adc_auto_calibration_not_atomic_witness :
    ∃ tr, adc_auto_calibration demoOracleFail 0 true =
        some (AdcStatus.kStatus_ADC_Failed, tr) ∧
      HalEvent.configureHwAverage 0 true ∈ tr ∧
      hwAvgAfter 0 false tr = true ∧
      HalEvent.configureHwAverage 0 false ∉ tr :=
  (adc_auto_calibration_not_atomic demoOracleFail 0).1 rfl

end AdcDriver
